import Mathlib

/-!
Shallow embedding of the server actions in `src/app/lib/actions.ts` of the
nextjs-dashboard repository: form validation (zod schemas `FormSchema` /
`CustomerFormSchema`), the mutation actions `createInvoice`, `updateInvoice`,
`deleteInvoice`, `createCustomer`, `updateCustomer`, `deleteCustomer`, and the
`authenticate` action.

Modelling conventions:
* A submitted form field (`formData.get(...)`) is an `Option String`
  (`none` = the field is absent, i.e. `FormData.get` returned `null`).
* Numbers are rationals (`ℚ`); `z.coerce.number()` applies JavaScript's
  `Number(...)` conversion, embedded for decimal literals by `jsNumber`
  (`Number(null) = 0`, non-numeric strings give NaN = `none`).
* The observable behaviour of an action is a pair: the list of `Effect`s it
  issues, in order (SQL statements, `revalidatePath`, `redirect`) and its
  outcome (a returned state object, or a redirect that never returns).
* A SQL statement that throws is modelled by the flag `dbOk = false`; the
  attempted statement still appears in the trace, but nothing after it does.
* The relational store itself is modelled by `runUpdateInvoices`,
  `runDeleteInvoices`, `runUpdateCustomers`, `runDeleteCustomers`, the row
  transformations that the emitted UPDATE/DELETE statements denote.
-/

/-- One decimal digit as a character (`Nat.digitChar` of the last digit). -/
def digitCh (n : ℕ) : Char := Nat.digitChar (n % 10)

/-- Two-digit zero-padded rendering, as `toISOString` prints months and days. -/
def pad2 (n : ℕ) : String := String.mk [digitCh (n / 10), digitCh n]

/-- Four-digit zero-padded rendering, as `toISOString` prints in-range years. -/
def pad4 (n : ℕ) : String :=
  String.mk [digitCh (n / 1000), digitCh (n / 100), digitCh (n / 10), digitCh n]

/-- A UTC calendar date, the date part of the JavaScript clock. -/
structure UTCDate where
  year : ℕ
  month : ℕ
  day : ℕ
deriving DecidableEq, Repr

/-- `new Date().toISOString().split("T")[0]` — the `YYYY-MM-DD` date part of
the ISO timestamp of the current UTC date. -/
def toISODateString (d : UTCDate) : String :=
  pad4 d.year ++ "-" ++ pad2 d.month ++ "-" ++ pad2 d.day

/-- Numeric value of a digit character, `none` on a non-digit. -/
def digitVal (c : Char) : Option ℕ :=
  if c.isDigit then some (c.toNat - 48) else none

/-- Reads a digit string left to right as a natural number; `none` as soon as a
non-digit appears. The empty list reads as `0` (callers guard emptiness). -/
def parseDigits (cs : List Char) : Option ℕ :=
  cs.foldl (fun acc c =>
    match acc, digitVal c with
    | some n, some d => some (n * 10 + d)
    | _, _ => none) (some 0)

/-- An unsigned decimal literal `digits[.digits]` as a rational; `none` when a
character is not a digit or the string is just `"."`. -/
def parseUnsignedDecimal (cs : List Char) : Option ℚ :=
  let intPart := cs.takeWhile (fun c => c ≠ '.')
  match cs.dropWhile (fun c => c ≠ '.') with
  | [] => (parseDigits intPart).map (fun n => (n : ℚ))
  | '.' :: frac =>
      if intPart.isEmpty ∧ frac.isEmpty then none
      else
        match parseDigits intPart, parseDigits frac with
        | some n, some f => some ((n : ℚ) + (f : ℚ) / (10 : ℚ) ^ frac.length)
        | _, _ => none
  | _ => none

/-- JavaScript `Number(s)` on a decimal-literal string: `""` is `0`, an
optional leading sign, digits with at most one point; `none` models NaN.
(Exponent, hex and whitespace forms, which the forms never submit, are out of
scope of the embedding.) -/
def jsNumber (s : String) : Option ℚ :=
  match s.data with
  | [] => some 0
  | '-' :: rest => if rest.isEmpty then none else (parseUnsignedDecimal rest).map Neg.neg
  | '+' :: rest => if rest.isEmpty then none else parseUnsignedDecimal rest
  | cs => parseUnsignedDecimal cs

/-- `z.coerce.number()`'s coercion of a form value: `Number(null) = 0` for an
absent field, otherwise `Number` of the string. -/
def coerceNumber (v : Option String) : Option ℚ :=
  match v with
  | none => some 0
  | some s => jsNumber s

/-- `z.string({ invalid_type_error: 'Please Select a Customer.' })` applied to
`formData.get("customerId")`: any string (the empty string included) passes;
the absent field (`null`) is an invalid type. -/
def validateCustomerId (v : Option String) : Except (List String) String :=
  match v with
  | some s => .ok s
  | none => .error ["Please Select a Customer."]

/-- `z.coerce.number().gt(0, ...)` applied to `formData.get("amount")`:
coerce, then require the number to be strictly positive. NaN is an invalid
type (zod's default message). -/
def validateAmount (v : Option String) : Except (List String) ℚ :=
  match coerceNumber v with
  | none => .error ["Expected number, received nan"]
  | some q =>
      if 0 < q then .ok q
      else .error ["Please enter an amount greater than $0."]

/-- `z.enum(["pending", "paid"], { invalid_type_error: ... })` applied to
`formData.get("status")`: exactly the two literals pass; the absent field is
an invalid type; any other string is an invalid enum value (zod's default
message). -/
def validateStatus (v : Option String) : Except (List String) String :=
  match v with
  | none => .error ["Please select an invoice status."]
  | some s =>
      if s = "pending" ∨ s = "paid" then .ok s
      else .error ["Invalid enum value. Expected 'pending' | 'paid', received '" ++ s ++ "'"]

/-- `z.string({ message: 'Please enter a name.' })` applied to
`formData.get("name")`: any string (the empty string included) passes; the
absent field is an invalid type. -/
def validateName (v : Option String) : Except (List String) String :=
  match v with
  | some s => .ok s
  | none => .error ["Please enter a name."]

/-- Modelled from the spec: the email-format predicate of the external
validation library (`z.string().email` — "must match a valid email format",
"syntactically valid email string"); the library's regex is not part of this
repository's source. One `@` with a nonempty local part and a dotted,
nonempty domain. -/
def isValidEmail (s : String) : Bool :=
  let cs := s.data
  let localPart := cs.takeWhile (fun c => c ≠ '@')
  match cs.dropWhile (fun c => c ≠ '@') with
  | '@' :: dom =>
      (!localPart.isEmpty) && (!dom.isEmpty) && (!dom.contains '@') &&
      dom.contains '.' && (dom.head? != some '.') && (dom.getLast? != some '.')
  | _ => false

/-- `z.string().email({ message: 'Please enter a valid email address.' })`
applied to `formData.get("email")`: the absent field is an invalid type
(zod's default message); a string must pass the email-format check. -/
def validateEmail (v : Option String) : Except (List String) String :=
  match v with
  | none => .error ["Expected string, received null"]
  | some s =>
      if isValidEmail s then .ok s
      else .error ["Please enter a valid email address."]

/-- `z.string({ message: 'Please upload valid image.' })` applied to
`formData.get("imageUrl")`: any string passes; the absent field is an
invalid type. -/
def validateImageUrl (v : Option String) : Except (List String) String :=
  match v with
  | some s => .ok s
  | none => .error ["Please upload valid image."]

/-- The error list a field contributes to `flatten().fieldErrors`: its own
messages when it failed, nothing when it passed. -/
def errsOf {α : Type} (r : Except (List String) α) : List String :=
  match r with
  | .ok _ => []
  | .error es => es

/-- The three invoice form fields read by `createInvoice` / `updateInvoice`. -/
structure InvoiceForm where
  customerId : Option String
  amount : Option String
  status : Option String
deriving DecidableEq, Repr

/-- `validatedFields.error.flatten().fieldErrors` for the invoice schema:
field name → list of messages (`[]` = the key is absent). -/
structure InvoiceErrors where
  customerId : List String
  amount : List String
  status : List String
deriving DecidableEq, Repr

/-- `validatedFields.data` for the invoice schema. -/
structure InvoiceData where
  customerId : String
  amount : ℚ
  status : String
deriving DecidableEq, Repr

/-- `CreateInvoice.safeParse` / `UpdateInvoice.safeParse` (the same schema,
`FormSchema.omit({id, date})`): validate every field, and either produce the
typed record or accumulate each failing field's messages. -/
def parseInvoice (f : InvoiceForm) : Except InvoiceErrors InvoiceData :=
  match validateCustomerId f.customerId, validateAmount f.amount, validateStatus f.status with
  | .ok c, .ok a, .ok s => .ok ⟨c, a, s⟩
  | rc, ra, rs => .error ⟨errsOf rc, errsOf ra, errsOf rs⟩

/-- The three customer form fields read by `createCustomer` / `updateCustomer`. -/
structure CustomerForm where
  name : Option String
  email : Option String
  imageUrl : Option String
deriving DecidableEq, Repr

/-- `validatedFields.error.flatten().fieldErrors` for the customer schema. -/
structure CustomerErrors where
  name : List String
  email : List String
  imageUrl : List String
deriving DecidableEq, Repr

/-- `validatedFields.data` for the customer schema. -/
structure CustomerData where
  name : String
  email : String
  imageUrl : String
deriving DecidableEq, Repr

/-- `CreateCustomer.safeParse` / `UpdateCustomer.safeParse` (the same schema,
`CustomerFormSchema.omit({id})`). -/
def parseCustomer (f : CustomerForm) : Except CustomerErrors CustomerData :=
  match validateName f.name, validateEmail f.email, validateImageUrl f.imageUrl with
  | .ok n, .ok e, .ok u => .ok ⟨n, e, u⟩
  | rn, re, ru => .error ⟨errsOf rn, errsOf re, errsOf ru⟩

/-- The `State` object returned to the UI by the invoice actions. -/
structure State where
  message : Option String
  error : Option InvoiceErrors
deriving DecidableEq, Repr

/-- The `CustomerState` object returned to the UI by the customer actions. -/
structure CustomerState where
  message : Option String
  error : Option CustomerErrors
deriving DecidableEq, Repr

/-- One observable side effect of an action, in the order issued: a SQL
statement against the store, a `revalidatePath`, or a `redirect`. -/
inductive Effect where
  | insertInvoice (customer_id : String) (amount : ℚ) (status : String) (date : String)
  | updateInvoiceRow (id : String) (customer_id : String) (amount : ℚ) (status : String)
  | deleteInvoiceRow (id : String)
  | insertCustomer (name : String) (email : String) (image_url : String)
  | updateCustomerRow (id : String) (name : String) (email : String) (image_url : String)
  | deleteCustomerRow (id : String)
  | revalidate (path : String)
  | redirectTo (path : String)
deriving DecidableEq, Repr

/-- Whether an effect is a storage write (a SQL statement). -/
def Effect.isStorageWrite : Effect → Bool
  | .insertInvoice _ _ _ _ => true
  | .updateInvoiceRow _ _ _ _ => true
  | .deleteInvoiceRow _ => true
  | .insertCustomer _ _ _ => true
  | .updateCustomerRow _ _ _ _ => true
  | .deleteCustomerRow _ => true
  | .revalidate _ => false
  | .redirectTo _ => false

/-- How an action invocation ends: it returns a state object to the caller,
or `redirect` transfers control and the function never returns. -/
inductive Outcome (σ : Type) where
  | returned (state : σ)
  | redirected (path : String)
deriving DecidableEq, Repr

/-- `createInvoice(prevState, formData)`: validate; on failure return the
field errors with no effect; on success insert `(customerId, amount*100,
status, today)` and, if the INSERT does not throw, revalidate and redirect to
the invoices list. `now` is the current UTC date, `dbOk` whether the SQL call
succeeds. -/
def createInvoice (now : UTCDate) (dbOk : Bool) (f : InvoiceForm) :
    List Effect × Outcome State :=
  match parseInvoice f with
  | .error e =>
      ([], .returned ⟨some "Missing Fields. Failed to Create Invoice.", some e⟩)
  | .ok d =>
      let amountInCents := d.amount * 100
      let date := toISODateString now
      if dbOk then
        ([.insertInvoice d.customerId amountInCents d.status date,
          .revalidate "/dashboard/invoices",
          .redirectTo "/dashboard/invoices"],
         .redirected "/dashboard/invoices")
      else
        ([.insertInvoice d.customerId amountInCents d.status date],
         .returned ⟨some "Database Error : Failed To Create Invoice.", none⟩)

/-- `updateInvoice(id, prevState, formData)`: validate; on failure return the
field errors with no effect; on success UPDATE the row matched by `id` and,
if the UPDATE does not throw, revalidate and redirect to the invoices list. -/
def updateInvoice (id : String) (dbOk : Bool) (f : InvoiceForm) :
    List Effect × Outcome State :=
  match parseInvoice f with
  | .error e =>
      ([], .returned ⟨some "Missing Fields. Failed to Update Invoice.", some e⟩)
  | .ok d =>
      let amountInCents := d.amount * 100
      if dbOk then
        ([.updateInvoiceRow id d.customerId amountInCents d.status,
          .revalidate "/dashboard/invoices",
          .redirectTo "/dashboard/invoices"],
         .redirected "/dashboard/invoices")
      else
        ([.updateInvoiceRow id d.customerId amountInCents d.status],
         .returned ⟨some "Database Error: Failed to Update Invoice.", none⟩)

/-- `deleteInvoice(id)`: DELETE the row matched by `id`; if the statement does
not throw, revalidate the invoices list and return the confirmation message;
otherwise return the database-error message. Never redirects. -/
def deleteInvoice (dbOk : Bool) (id : String) : List Effect × State :=
  if dbOk then
    ([.deleteInvoiceRow id, .revalidate "/dashboard/invoices"],
     ⟨some "Deleted Invoice.", none⟩)
  else
    ([.deleteInvoiceRow id], ⟨some "Database Error: Failed to Delete Invoice.", none⟩)

/-- `createCustomer(prevState, formData)`: validate; on failure return the
field errors with no effect; on success INSERT and, if the statement does not
throw, revalidate and redirect to the customers list. -/
def createCustomer (dbOk : Bool) (f : CustomerForm) :
    List Effect × Outcome CustomerState :=
  match parseCustomer f with
  | .error e =>
      ([], .returned ⟨some "Missing Fields. Failed to Create Customer.", some e⟩)
  | .ok d =>
      if dbOk then
        ([.insertCustomer d.name d.email d.imageUrl,
          .revalidate "/dashboard/customers",
          .redirectTo "/dashboard/customers"],
         .redirected "/dashboard/customers")
      else
        ([.insertCustomer d.name d.email d.imageUrl],
         .returned ⟨some "Database Error : Failed To Create Customer.", none⟩)

/-- `updateCustomer(id, prevState, formData)`: validate; on failure return the
field errors with no effect; on success UPDATE the row matched by `id` and,
if the statement does not throw, revalidate and redirect to the customers
list. -/
def updateCustomer (id : String) (dbOk : Bool) (f : CustomerForm) :
    List Effect × Outcome CustomerState :=
  match parseCustomer f with
  | .error e =>
      ([], .returned ⟨some "Missing Fields. Failed to Update Customer.", some e⟩)
  | .ok d =>
      if dbOk then
        ([.updateCustomerRow id d.name d.email d.imageUrl,
          .revalidate "/dashboard/customers",
          .redirectTo "/dashboard/customers"],
         .redirected "/dashboard/customers")
      else
        ([.updateCustomerRow id d.name d.email d.imageUrl],
         .returned ⟨some "Database Error: Failed to Update Customer.", none⟩)

/-- `deleteCustomer(id)`: DELETE the row matched by `id`; if the statement
does not throw, revalidate the customers list and return the confirmation
message; otherwise return the database-error message. Never redirects. -/
def deleteCustomer (dbOk : Bool) (id : String) : List Effect × CustomerState :=
  if dbOk then
    ([.deleteCustomerRow id, .revalidate "/dashboard/customers"],
     ⟨some "Deleted Customer.", none⟩)
  else
    ([.deleteCustomerRow id], ⟨some "Database Error: Failed to Delete Customer.", none⟩)

/-- A row of the `invoices` table. -/
structure InvoiceRow where
  id : String
  customer_id : String
  amount : ℚ
  status : String
  date : String
deriving DecidableEq, Repr

/-- A row of the `customers` table. -/
structure CustomerRow where
  id : String
  name : String
  email : String
  image_url : String
deriving DecidableEq, Repr

/-- What the emitted `UPDATE invoices SET customer_id = .., amount = ..,
status = .. WHERE id = ..` denotes on the table: every row whose `id` matches
gets the three mutable columns replaced; every other row is untouched. -/
def runUpdateInvoices (tbl : List InvoiceRow) (id cid : String) (amt : ℚ)
    (st : String) : List InvoiceRow :=
  tbl.map fun r =>
    if r.id = id then { r with customer_id := cid, amount := amt, status := st } else r

/-- What the emitted `DELETE FROM invoices WHERE id = ..` denotes on the
table: the rows whose `id` matches disappear (deleting zero rows succeeds). -/
def runDeleteInvoices (tbl : List InvoiceRow) (id : String) : List InvoiceRow :=
  tbl.filter fun r => r.id != id

/-- What the emitted `UPDATE customers SET name = .., email = .., image_url =
.. WHERE id = ..` denotes on the table. -/
def runUpdateCustomers (tbl : List CustomerRow) (id nm em img : String) :
    List CustomerRow :=
  tbl.map fun r =>
    if r.id = id then { r with name := nm, email := em, image_url := img } else r

/-- What the emitted `DELETE FROM customers WHERE id = ..` denotes. -/
def runDeleteCustomers (tbl : List CustomerRow) (id : String) : List CustomerRow :=
  tbl.filter fun r => r.id != id

/-- How the `signIn('credentials', formData)` call ends: success, an
`AuthError` carrying its `type` string, or an error that is not an
`AuthError`. -/
inductive SignInResult where
  | ok
  | authError (type : String)
  | otherError (e : String)
deriving DecidableEq, Repr

/-- How `authenticate` ends: it returns (a message, or nothing on success),
or the caught error is re-thrown. -/
inductive AuthOutcome where
  | returned (msg : Option String)
  | thrown (e : String)
deriving DecidableEq, Repr

/-- `authenticate(prevState, formData)`: try `signIn`; an `AuthError` of type
`CredentialsSignin` becomes "Invalid credentials.", any other `AuthError`
becomes "Something went wrong.", and a non-`AuthError` error is re-thrown. -/
def authenticate (r : SignInResult) : AuthOutcome :=
  match r with
  | .ok => .returned none
  | .authError t =>
      if t = "CredentialsSignin" then .returned (some "Invalid credentials.")
      else .returned (some "Something went wrong.")
  | .otherError e => .thrown e

/-! ### Helper lemmas -/

theorem digitChar_isDigit_of_lt (m : ℕ) (h : m < 10) :
    (Nat.digitChar m).isDigit = true := by
  interval_cases m <;> decide

theorem digitCh_isDigit (n : ℕ) : (digitCh n).isDigit = true :=
  digitChar_isDigit_of_lt (n % 10) (Nat.mod_lt n (by decide))

theorem parseInvoice_error_eq (f : InvoiceForm) (e : InvoiceErrors)
    (h : parseInvoice f = .error e) :
    e = ⟨errsOf (validateCustomerId f.customerId), errsOf (validateAmount f.amount),
         errsOf (validateStatus f.status)⟩ := by
  unfold parseInvoice at h
  rcases hc : validateCustomerId f.customerId with ec | c <;>
    rcases ha : validateAmount f.amount with ea | a <;>
      rcases hs : validateStatus f.status with es | s <;>
        rw [hc, ha, hs] at h <;> simp_all [errsOf]

theorem parseCustomer_error_eq (f : CustomerForm) (e : CustomerErrors)
    (h : parseCustomer f = .error e) :
    e = ⟨errsOf (validateName f.name), errsOf (validateEmail f.email),
         errsOf (validateImageUrl f.imageUrl)⟩ := by
  unfold parseCustomer at h
  rcases hn : validateName f.name with en | n <;>
    rcases he : validateEmail f.email with ee | em <;>
      rcases hu : validateImageUrl f.imageUrl with eu | u <;>
        rw [hn, he, hu] at h <;> simp_all [errsOf]

/-! ### Claim theorems -/

/-- C1: on any schema-validation failure, each of `createInvoice`,
`updateInvoice`, `createCustomer` and `updateCustomer` returns a state whose
error field maps every failing field to its own list of messages (all failing
fields accumulated, each entry being exactly that field's validator output)
together with the "Missing Fields. Failed to Create/Update <Entity>."
message, and issues no effect at all: no storage write, no cache
invalidation, no redirect. -/
theorem c1_validation_failure_accumulates_no_effects :
    (∀ (now : UTCDate) (dbOk : Bool) (f : InvoiceForm) (e : InvoiceErrors),
        parseInvoice f = .error e →
        e = ⟨errsOf (validateCustomerId f.customerId), errsOf (validateAmount f.amount),
             errsOf (validateStatus f.status)⟩ ∧
        createInvoice now dbOk f =
          ([], .returned ⟨some "Missing Fields. Failed to Create Invoice.", some e⟩)) ∧
    (∀ (id : String) (dbOk : Bool) (f : InvoiceForm) (e : InvoiceErrors),
        parseInvoice f = .error e →
        e = ⟨errsOf (validateCustomerId f.customerId), errsOf (validateAmount f.amount),
             errsOf (validateStatus f.status)⟩ ∧
        updateInvoice id dbOk f =
          ([], .returned ⟨some "Missing Fields. Failed to Update Invoice.", some e⟩)) ∧
    (∀ (dbOk : Bool) (f : CustomerForm) (e : CustomerErrors),
        parseCustomer f = .error e →
        e = ⟨errsOf (validateName f.name), errsOf (validateEmail f.email),
             errsOf (validateImageUrl f.imageUrl)⟩ ∧
        createCustomer dbOk f =
          ([], .returned ⟨some "Missing Fields. Failed to Create Customer.", some e⟩)) ∧
    (∀ (id : String) (dbOk : Bool) (f : CustomerForm) (e : CustomerErrors),
        parseCustomer f = .error e →
        e = ⟨errsOf (validateName f.name), errsOf (validateEmail f.email),
             errsOf (validateImageUrl f.imageUrl)⟩ ∧
        updateCustomer id dbOk f =
          ([], .returned ⟨some "Missing Fields. Failed to Update Customer.", some e⟩)) := by
  refine ⟨?_, ?_, ?_, ?_⟩
  · intro now dbOk f e h
    exact ⟨parseInvoice_error_eq f e h, by simp [createInvoice, h]⟩
  · intro id dbOk f e h
    exact ⟨parseInvoice_error_eq f e h, by simp [updateInvoice, h]⟩
  · intro dbOk f e h
    exact ⟨parseCustomer_error_eq f e h, by simp [createCustomer, h]⟩
  · intro id dbOk f e h
    exact ⟨parseCustomer_error_eq f e h, by simp [updateCustomer, h]⟩

/-- C1 witness: a form with both `customerId` missing and `amount` equal to
`"0"` is rejected with both field errors reported at once and no effects. -/
theorem c1_validation_failure_witness :
    createInvoice ⟨2026, 10, 12⟩ true ⟨none, some "0", some "paid"⟩ =
      ([], .returned ⟨some "Missing Fields. Failed to Create Invoice.",
        some ⟨["Please Select a Customer."],
              ["Please enter an amount greater than $0."], []⟩⟩) :=
  (c1_validation_failure_accumulates_no_effects.1 ⟨2026, 10, 12⟩ true
      ⟨none, some "0", some "paid"⟩
      ⟨["Please Select a Customer."], ["Please enter an amount greater than $0."], []⟩
      (by rfl)).2

/-! ### Evaluation lemmas for concrete amounts and dates -/

theorem validateAmount_45 : validateAmount (some "45.00") = .ok 45 := by
  have h : coerceNumber (some "45.00") = some (((45:ℕ):ℚ) + ((0:ℕ):ℚ) / (10:ℚ) ^ 2) := rfl
  unfold validateAmount
  rw [h]
  norm_num

theorem validateAmount_0005 : validateAmount (some "0.005") = .ok (1/200) := by
  have h : coerceNumber (some "0.005") = some (((0:ℕ):ℚ) + ((5:ℕ):ℚ) / (10:ℚ) ^ 3) := rfl
  unfold validateAmount
  rw [h]
  norm_num

theorem validateAmount_1050 : validateAmount (some "10.50") = .ok (21/2) := by
  have h : coerceNumber (some "10.50") = some (((10:ℕ):ℚ) + ((50:ℕ):ℚ) / (10:ℚ) ^ 2) := rfl
  unfold validateAmount
  rw [h]
  norm_num

theorem parseInvoice_ok_of (c st : String) (a : Option String) (q : ℚ)
    (ha : validateAmount a = .ok q) (hs : validateStatus (some st) = .ok st) :
    parseInvoice ⟨some c, a, some st⟩ = .ok ⟨c, q, st⟩ := by
  unfold parseInvoice
  rw [ha, hs]
  rfl

theorem parseInvoice_c1_45 :
    parseInvoice ⟨some "c1", some "45.00", some "paid"⟩ = .ok ⟨"c1", 45, "paid"⟩ :=
  parseInvoice_ok_of "c1" "paid" (some "45.00") 45 validateAmount_45 rfl

theorem toISODateString_20261012 : toISODateString ⟨2026, 10, 12⟩ = "2026-10-12" := by
  decide

/-- C2 counterexample: the amount `"0.005"` passes validation (it coerces to
`1/200 > 0`), and `createInvoice` stores `1/200 * 100 = 1/2` — a stored value
that is not an integer (its reduced denominator is `2`, not `1`), refuting
"this stored value is an integer" for every validated amount. -/
theorem c2_counterexample_stored_amount_not_integer :
    createInvoice ⟨2026, 10, 12⟩ true ⟨some "c1", some "0.005", some "paid"⟩ =
      ([.insertInvoice "c1" ((1:ℚ)/2) "paid" "2026-10-12",
        .revalidate "/dashboard/invoices",
        .redirectTo "/dashboard/invoices"],
       .redirected "/dashboard/invoices") ∧
    ((1:ℚ)/2).den ≠ 1 := by
  have hp : parseInvoice ⟨some "c1", some "0.005", some "paid"⟩ = .ok ⟨"c1", 1/200, "paid"⟩ :=
    parseInvoice_ok_of "c1" "paid" (some "0.005") (1/200) validateAmount_0005 rfl
  refine ⟨?_, by norm_num⟩
  simp only [createInvoice, hp, toISODateString_20261012, if_true]
  norm_num

/-- C2 (amended): for every validated amount, `createInvoice` and
`updateInvoice` store exactly `amount * 100` (no rounding to an integer is
performed); in particular the input `"45.00"` validates to `45` and is stored
as `4500`, which is an integer. -/
theorem c2_amount_scaled_by_hundred :
    (∀ (now : UTCDate) (dbOk : Bool) (f : InvoiceForm) (d : InvoiceData),
        parseInvoice f = .ok d →
        (createInvoice now dbOk f).1.head? =
          some (.insertInvoice d.customerId (d.amount * 100) d.status (toISODateString now))) ∧
    (∀ (id : String) (dbOk : Bool) (f : InvoiceForm) (d : InvoiceData),
        parseInvoice f = .ok d →
        (updateInvoice id dbOk f).1.head? =
          some (.updateInvoiceRow id d.customerId (d.amount * 100) d.status)) ∧
    validateAmount (some "45.00") = .ok 45 ∧
    (45 : ℚ) * 100 = 4500 ∧ ((4500 : ℚ)).den = 1 := by
  refine ⟨?_, ?_, validateAmount_45, by norm_num, by norm_num⟩
  · intro now dbOk f d h
    cases dbOk <;> simp [createInvoice, h]
  · intro id dbOk f d h
    cases dbOk <;> simp [updateInvoice, h]

/-- C2 witness: the well-formed form (`"c1"`, `"45.00"`, `"paid"`) leads to a
stored amount of `45 * 100 = 4500`. -/
theorem c2_amount_scaled_witness :
    (createInvoice ⟨2026, 10, 12⟩ true ⟨some "c1", some "45.00", some "paid"⟩).1.head? =
      some (.insertInvoice "c1" 4500 "paid" "2026-10-12") := by
  have h := c2_amount_scaled_by_hundred.1 ⟨2026, 10, 12⟩ true
    ⟨some "c1", some "45.00", some "paid"⟩ ⟨"c1", 45, "paid"⟩ parseInvoice_c1_45
  rw [h, toISODateString_20261012]
  norm_num

/-- C3: on a well-formed input with a successful write, `createInvoice` stamps
`toISODateString now` — the `YYYY-MM-DD` rendering of the current UTC calendar
date: four digits, dash, two digits, dash, two digits — as the issue date of
the inserted row, and its trace ends with the invoices-list cache invalidation
followed by the redirect there, the redirect being the very last step and the
outcome (nothing executes afterwards in the invocation). -/
theorem c3_create_stamps_date_then_revalidates_and_redirects :
    ∀ (now : UTCDate) (f : InvoiceForm) (d : InvoiceData),
      parseInvoice f = .ok d →
      createInvoice now true f =
        ([.insertInvoice d.customerId (d.amount * 100) d.status (toISODateString now),
          .revalidate "/dashboard/invoices",
          .redirectTo "/dashboard/invoices"],
         .redirected "/dashboard/invoices") ∧
      toISODateString now = pad4 now.year ++ "-" ++ pad2 now.month ++ "-" ++ pad2 now.day ∧
      (pad4 now.year).length = 4 ∧ (pad2 now.month).length = 2 ∧ (pad2 now.day).length = 2 ∧
      (pad4 now.year).data.all Char.isDigit = true ∧
      (pad2 now.month).data.all Char.isDigit = true ∧
      (pad2 now.day).data.all Char.isDigit = true := by
  intro now f d h
  refine ⟨by simp [createInvoice, h], rfl, rfl, rfl, rfl, ?_, ?_, ?_⟩ <;>
    simp [pad4, pad2, digitCh_isDigit]

/-- C3 witness: on 2026-10-12 the well-formed form (`"c1"`, `"45.00"`,
`"paid"`) inserts the row dated `"2026-10-12"` and then revalidates and
redirects to the invoices list. -/
theorem c3_create_stamps_date_witness :
    createInvoice ⟨2026, 10, 12⟩ true ⟨some "c1", some "45.00", some "paid"⟩ =
      ([.insertInvoice "c1" 4500 "paid" "2026-10-12",
        .revalidate "/dashboard/invoices",
        .redirectTo "/dashboard/invoices"],
       .redirected "/dashboard/invoices") := by
  have h := (c3_create_stamps_date_then_revalidates_and_redirects ⟨2026, 10, 12⟩
    ⟨some "c1", some "45.00", some "paid"⟩ ⟨"c1", 45, "paid"⟩ parseInvoice_c1_45).1
  rw [h, toISODateString_20261012]
  norm_num

/-- C4 counterexample: an empty-string `customerId` (and an empty-string
customer `name`) is accepted by the schema — `z.string()` does not require
non-emptiness — so validation does not fail for these fields and
`createInvoice` proceeds all the way to the storage write, refuting the claim
for the empty-string case. -/
theorem c4_counterexample_empty_string_passes :
    parseInvoice ⟨some "", some "45.00", some "paid"⟩ = .ok ⟨"", 45, "paid"⟩ ∧
    parseCustomer ⟨some "", some "ada@example.com", some "/img/ada.png"⟩ =
      .ok ⟨"", "ada@example.com", "/img/ada.png"⟩ ∧
    createInvoice ⟨2026, 10, 12⟩ true ⟨some "", some "45.00", some "paid"⟩ =
      ([.insertInvoice "" 4500 "paid" "2026-10-12",
        .revalidate "/dashboard/invoices",
        .redirectTo "/dashboard/invoices"],
       .redirected "/dashboard/invoices") := by
  have hp : parseInvoice ⟨some "", some "45.00", some "paid"⟩ = .ok ⟨"", 45, "paid"⟩ :=
    parseInvoice_ok_of "" "paid" (some "45.00") 45 validateAmount_45 rfl
  refine ⟨hp, rfl, ?_⟩
  simp only [createInvoice, hp, toISODateString_20261012, if_true]
  norm_num

/-- C4 (amended): only an absent field (a `null` from `FormData.get`) makes
the customer-reference / name validation fail, with the field-specific
message, and then the action performs no storage write; any present string —
the empty string included — passes these fields (non-emptiness is not
enforced). -/
theorem c4_absent_reference_or_name_fails :
    validateCustomerId none = .error ["Please Select a Customer."] ∧
    validateName none = .error ["Please enter a name."] ∧
    (∀ s, validateCustomerId (some s) = .ok s) ∧
    (∀ s, validateName (some s) = .ok s) ∧
    (∀ (now : UTCDate) (dbOk : Bool) (f : InvoiceForm), f.customerId = none →
        createInvoice now dbOk f =
          ([], .returned ⟨some "Missing Fields. Failed to Create Invoice.",
            some ⟨["Please Select a Customer."], errsOf (validateAmount f.amount),
                  errsOf (validateStatus f.status)⟩⟩)) ∧
    (∀ (id : String) (dbOk : Bool) (f : InvoiceForm), f.customerId = none →
        (updateInvoice id dbOk f).1 = []) ∧
    (∀ (dbOk : Bool) (f : CustomerForm), f.name = none →
        createCustomer dbOk f =
          ([], .returned ⟨some "Missing Fields. Failed to Create Customer.",
            some ⟨["Please enter a name."], errsOf (validateEmail f.email),
                  errsOf (validateImageUrl f.imageUrl)⟩⟩)) ∧
    (∀ (id : String) (dbOk : Bool) (f : CustomerForm), f.name = none →
        (updateCustomer id dbOk f).1 = []) := by
  refine ⟨rfl, rfl, fun s => rfl, fun s => rfl, ?_, ?_, ?_, ?_⟩
  · intro now dbOk f hf
    simp [createInvoice, parseInvoice, hf, validateCustomerId, errsOf]
  · intro id dbOk f hf
    simp [updateInvoice, parseInvoice, hf, validateCustomerId, errsOf]
  · intro dbOk f hf
    simp [createCustomer, parseCustomer, hf, validateName, errsOf]
  · intro id dbOk f hf
    simp [updateCustomer, parseCustomer, hf, validateName, errsOf]

/-- C4 witness: a form with no `customerId` field at all is rejected with the
field-specific message and no storage write. -/
theorem c4_absent_reference_witness :
    createInvoice ⟨2026, 10, 12⟩ true ⟨none, some "45", some "paid"⟩ =
      ([], .returned ⟨some "Missing Fields. Failed to Create Invoice.",
        some ⟨["Please Select a Customer."], [], []⟩⟩) := by
  have h := c4_absent_reference_or_name_fails.2.2.2.2.1 ⟨2026, 10, 12⟩ true
    ⟨none, some "45", some "paid"⟩ rfl
  rw [h]
  rfl

theorem parseInvoice_c1_1050 :
    parseInvoice ⟨some "c1", some "10.50", some "paid"⟩ = .ok ⟨"c1", 21/2, "paid"⟩ :=
  parseInvoice_ok_of "c1" "paid" (some "10.50") (21/2) validateAmount_1050 rfl

theorem parseCustomer_ada :
    parseCustomer ⟨some "Ada", some "ada@example.com", some "/img/ada.png"⟩ =
      .ok ⟨"Ada", "ada@example.com", "/img/ada.png"⟩ := rfl

/-- C5: when the storage write throws (`dbOk = false`), every mutation
returns its "Database Error" message as the terminal observable outcome: the
exact message per operation is proved, and every effect in such a run is the
attempted SQL statement itself — in particular no cache invalidation and no
redirect ever happens in a failed run. -/
theorem c5_storage_failure_terminal :
    (∀ (now : UTCDate) (f : InvoiceForm) (d : InvoiceData), parseInvoice f = .ok d →
        createInvoice now false f =
          ([.insertInvoice d.customerId (d.amount * 100) d.status (toISODateString now)],
           .returned ⟨some "Database Error : Failed To Create Invoice.", none⟩)) ∧
    (∀ (id : String) (f : InvoiceForm) (d : InvoiceData), parseInvoice f = .ok d →
        updateInvoice id false f =
          ([.updateInvoiceRow id d.customerId (d.amount * 100) d.status],
           .returned ⟨some "Database Error: Failed to Update Invoice.", none⟩)) ∧
    (∀ id, deleteInvoice false id =
        ([.deleteInvoiceRow id], ⟨some "Database Error: Failed to Delete Invoice.", none⟩)) ∧
    (∀ (f : CustomerForm) (d : CustomerData), parseCustomer f = .ok d →
        createCustomer false f =
          ([.insertCustomer d.name d.email d.imageUrl],
           .returned ⟨some "Database Error : Failed To Create Customer.", none⟩)) ∧
    (∀ (id : String) (f : CustomerForm) (d : CustomerData), parseCustomer f = .ok d →
        updateCustomer id false f =
          ([.updateCustomerRow id d.name d.email d.imageUrl],
           .returned ⟨some "Database Error: Failed to Update Customer.", none⟩)) ∧
    (∀ id, deleteCustomer false id =
        ([.deleteCustomerRow id], ⟨some "Database Error: Failed to Delete Customer.", none⟩)) ∧
    (∀ (now : UTCDate) (f : InvoiceForm) (e : Effect),
        e ∈ (createInvoice now false f).1 → e.isStorageWrite = true) ∧
    (∀ (id : String) (f : InvoiceForm) (e : Effect),
        e ∈ (updateInvoice id false f).1 → e.isStorageWrite = true) ∧
    (∀ (f : CustomerForm) (e : Effect),
        e ∈ (createCustomer false f).1 → e.isStorageWrite = true) ∧
    (∀ (id : String) (f : CustomerForm) (e : Effect),
        e ∈ (updateCustomer id false f).1 → e.isStorageWrite = true) ∧
    (∀ (id : String) (e : Effect),
        e ∈ (deleteInvoice false id).1 → e.isStorageWrite = true) ∧
    (∀ (id : String) (e : Effect),
        e ∈ (deleteCustomer false id).1 → e.isStorageWrite = true) := by
  refine ⟨?_, ?_, fun id => rfl, ?_, ?_, fun id => rfl, ?_, ?_, ?_, ?_, ?_, ?_⟩
  · intro now f d h; simp [createInvoice, h]
  · intro id f d h; simp [updateInvoice, h]
  · intro f d h; simp [createCustomer, h]
  · intro id f d h; simp [updateCustomer, h]
  · intro now f e he
    rcases hp : parseInvoice f with er | d <;> simp [createInvoice, hp] at he <;>
      subst he <;> rfl
  · intro id f e he
    rcases hp : parseInvoice f with er | d <;> simp [updateInvoice, hp] at he <;>
      subst he <;> rfl
  · intro f e he
    rcases hp : parseCustomer f with er | d <;> simp [createCustomer, hp] at he <;>
      subst he <;> rfl
  · intro id f e he
    rcases hp : parseCustomer f with er | d <;> simp [updateCustomer, hp] at he <;>
      subst he <;> rfl
  · intro id e he; simp [deleteInvoice] at he; subst he; rfl
  · intro id e he; simp [deleteCustomer] at he; subst he; rfl

/-- C5 witness: a failed INSERT for the well-formed invoice form returns the
database-error state with only the attempted statement in the trace. -/
theorem c5_storage_failure_witness :
    createInvoice ⟨2026, 10, 12⟩ false ⟨some "c1", some "45.00", some "paid"⟩ =
      ([.insertInvoice "c1" 4500 "paid" "2026-10-12"],
       .returned ⟨some "Database Error : Failed To Create Invoice.", none⟩) := by
  rw [c5_storage_failure_terminal.1 ⟨2026, 10, 12⟩ _ ⟨"c1", 45, "paid"⟩ parseInvoice_c1_45,
      toISODateString_20261012]
  norm_num

/-- C6 counterexample: the storage-failure messages of the update actions are
`"Database Error: Failed to Update <Entity>."` — they are not the Create
message with "Update" substituted (`"Database Error : Failed To Update
<Entity>."`): the space before the colon and the capital "To" differ. -/
theorem c6_counterexample_storage_message_differs :
    (updateInvoice "inv-1" false ⟨some "c1", some "45.00", some "paid"⟩).2 =
      .returned ⟨some "Database Error: Failed to Update Invoice.", none⟩ ∧
    (updateCustomer "cus-1" false
        ⟨some "Ada", some "ada@example.com", some "/img/ada.png"⟩).2 =
      .returned ⟨some "Database Error: Failed to Update Customer.", none⟩ ∧
    "Database Error: Failed to Update Invoice." ≠
      "Database Error : Failed To Update Invoice." ∧
    "Database Error: Failed to Update Customer." ≠
      "Database Error : Failed To Update Customer." := by
  refine ⟨?_, ?_, by decide, by decide⟩
  · simp [updateInvoice, parseInvoice_c1_45]
  · simp [updateCustomer, parseCustomer_ada]

/-- C6 (amended): the validation-failure messages of the update actions are
exactly the Create messages with "Update" substituted ("Missing Fields.
Failed to Update <Entity>."), but the storage-failure messages are "Database
Error: Failed to Update <Entity>." — differing from the Create pattern
("Database Error : Failed To Create <Entity>.") in the space before the colon
and the case of "to". -/
theorem c6_update_failure_messages :
    (∀ (id : String) (dbOk : Bool) (f : InvoiceForm) (e : InvoiceErrors),
        parseInvoice f = .error e →
        (updateInvoice id dbOk f).2 =
          .returned ⟨some "Missing Fields. Failed to Update Invoice.", some e⟩) ∧
    (∀ (id : String) (f : InvoiceForm) (d : InvoiceData), parseInvoice f = .ok d →
        (updateInvoice id false f).2 =
          .returned ⟨some "Database Error: Failed to Update Invoice.", none⟩) ∧
    (∀ (id : String) (dbOk : Bool) (f : CustomerForm) (e : CustomerErrors),
        parseCustomer f = .error e →
        (updateCustomer id dbOk f).2 =
          .returned ⟨some "Missing Fields. Failed to Update Customer.", some e⟩) ∧
    (∀ (id : String) (f : CustomerForm) (d : CustomerData), parseCustomer f = .ok d →
        (updateCustomer id false f).2 =
          .returned ⟨some "Database Error: Failed to Update Customer.", none⟩) := by
  refine ⟨?_, ?_, ?_, ?_⟩
  · intro id dbOk f e h; simp [updateInvoice, h]
  · intro id f d h; simp [updateInvoice, h]
  · intro id dbOk f e h; simp [updateCustomer, h]
  · intro id f d h; simp [updateCustomer, h]

/-- C6 witness: a failed UPDATE of invoice `"inv-1"` on a well-formed form
returns the `"Database Error: Failed to Update Invoice."` message. -/
theorem c6_update_failure_messages_witness :
    (updateInvoice "inv-1" false ⟨some "c1", some "45.00", some "paid"⟩).2 =
      .returned ⟨some "Database Error: Failed to Update Invoice.", none⟩ :=
  c6_update_failure_messages.2.1 "inv-1" _ ⟨"c1", 45, "paid"⟩ parseInvoice_c1_45

/-- C7: on a valid update the actions issue exactly one storage statement —
the UPDATE carrying the validated values — and that statement, run against
any table, rewrites exactly the rows whose identifier matches: a matching row
gets all mutable fields set and keeps its identifier, and every row with a
different identifier is left unchanged (positionally and by membership). -/
theorem c7_update_targets_matching_rows_only :
    (∀ (id : String) (dbOk : Bool) (f : InvoiceForm) (d : InvoiceData),
        parseInvoice f = .ok d →
        (updateInvoice id dbOk f).1.filter Effect.isStorageWrite =
          [.updateInvoiceRow id d.customerId (d.amount * 100) d.status]) ∧
    (∀ (tbl : List InvoiceRow) (id cid : String) (amt : ℚ) (st : String) (i : ℕ)
        (r : InvoiceRow), tbl[i]? = some r →
        (runUpdateInvoices tbl id cid amt st)[i]? =
          some (if r.id = id
                then { r with customer_id := cid, amount := amt, status := st }
                else r)) ∧
    (∀ (tbl : List InvoiceRow) (id cid : String) (amt : ℚ) (st : String),
        (runUpdateInvoices tbl id cid amt st).map InvoiceRow.id = tbl.map InvoiceRow.id) ∧
    (∀ (tbl : List InvoiceRow) (id cid : String) (amt : ℚ) (st : String)
        (r : InvoiceRow), r ∈ tbl → r.id ≠ id → r ∈ runUpdateInvoices tbl id cid amt st) ∧
    (∀ (id : String) (dbOk : Bool) (f : CustomerForm) (d : CustomerData),
        parseCustomer f = .ok d →
        (updateCustomer id dbOk f).1.filter Effect.isStorageWrite =
          [.updateCustomerRow id d.name d.email d.imageUrl]) ∧
    (∀ (tbl : List CustomerRow) (id nm em img : String) (i : ℕ)
        (r : CustomerRow), tbl[i]? = some r →
        (runUpdateCustomers tbl id nm em img)[i]? =
          some (if r.id = id then { r with name := nm, email := em, image_url := img }
                else r)) ∧
    (∀ (tbl : List CustomerRow) (id nm em img : String),
        (runUpdateCustomers tbl id nm em img).map CustomerRow.id = tbl.map CustomerRow.id) ∧
    (∀ (tbl : List CustomerRow) (id nm em img : String) (r : CustomerRow),
        r ∈ tbl → r.id ≠ id → r ∈ runUpdateCustomers tbl id nm em img) := by
  refine ⟨?_, ?_, ?_, ?_, ?_, ?_, ?_, ?_⟩
  · intro id dbOk f d h
    cases dbOk <;> simp [updateInvoice, h, Effect.isStorageWrite]
  · intro tbl id cid amt st i r h
    simp [runUpdateInvoices, List.getElem?_map, h]
  · intro tbl id cid amt st
    unfold runUpdateInvoices
    rw [List.map_map]
    refine List.map_congr_left ?_
    intro r hr
    by_cases hid : r.id = id <;> simp [hid, Function.comp]
  · intro tbl id cid amt st r hr hne
    have h := List.mem_map_of_mem
      (fun r : InvoiceRow =>
        if r.id = id then { r with customer_id := cid, amount := amt, status := st } else r) hr
    simpa [runUpdateInvoices, hne] using h
  · intro id dbOk f d h
    cases dbOk <;> simp [updateCustomer, h, Effect.isStorageWrite]
  · intro tbl id nm em img i r h
    simp [runUpdateCustomers, List.getElem?_map, h]
  · intro tbl id nm em img
    unfold runUpdateCustomers
    rw [List.map_map]
    refine List.map_congr_left ?_
    intro r hr
    by_cases hid : r.id = id <;> simp [hid, Function.comp]
  · intro tbl id nm em img r hr hne
    have h := List.mem_map_of_mem
      (fun r : CustomerRow =>
        if r.id = id then { r with name := nm, email := em, image_url := img } else r) hr
    simpa [runUpdateCustomers, hne] using h

/-- C7 witness: running the UPDATE for identifier `"inv-1"` with amount
`"10.50"` (stored as `1050`) against a two-row table rewrites the matching
row and leaves the other row untouched. -/
theorem c7_update_targets_witness :
    (runUpdateInvoices
        [⟨"inv-1", "c0", 100, "pending", "2026-01-01"⟩,
         ⟨"inv-2", "c2", 200, "paid", "2026-01-02"⟩] "inv-1" "c1" 1050 "paid")[0]? =
      some ⟨"inv-1", "c1", 1050, "paid", "2026-01-01"⟩ ∧
    (runUpdateInvoices
        [⟨"inv-1", "c0", 100, "pending", "2026-01-01"⟩,
         ⟨"inv-2", "c2", 200, "paid", "2026-01-02"⟩] "inv-1" "c1" 1050 "paid")[1]? =
      some ⟨"inv-2", "c2", 200, "paid", "2026-01-02"⟩ := by
  constructor
  · have h := c7_update_targets_matching_rows_only.2.1
      [⟨"inv-1", "c0", 100, "pending", "2026-01-01"⟩,
       ⟨"inv-2", "c2", 200, "paid", "2026-01-02"⟩] "inv-1" "c1" 1050 "paid" 0
      ⟨"inv-1", "c0", 100, "pending", "2026-01-01"⟩ rfl
    rw [h]; simp
  · have h := c7_update_targets_matching_rows_only.2.1
      [⟨"inv-1", "c0", 100, "pending", "2026-01-01"⟩,
       ⟨"inv-2", "c2", 200, "paid", "2026-01-02"⟩] "inv-1" "c1" 1050 "paid" 1
      ⟨"inv-2", "c2", 200, "paid", "2026-01-02"⟩ rfl
    rw [h]; simp

/-- C8: on a successful storage call `deleteInvoice` / `deleteCustomer`
returns the "Deleted <Entity>." confirmation and revalidates the entity's
list view, never redirecting; the action's trace and returned state do not
depend on the table at all, and the DELETE statement applied to a table in
which no row matches the identifier leaves the table exactly unchanged — so
deleting a non-existent identifier is observationally identical to deleting
an existing one. -/
theorem c8_delete_confirms_regardless_of_existence :
    (∀ id, deleteInvoice true id =
        ([.deleteInvoiceRow id, .revalidate "/dashboard/invoices"],
         ⟨some "Deleted Invoice.", none⟩)) ∧
    (∀ id, deleteCustomer true id =
        ([.deleteCustomerRow id, .revalidate "/dashboard/customers"],
         ⟨some "Deleted Customer.", none⟩)) ∧
    (∀ (dbOk : Bool) (id p : String), Effect.redirectTo p ∉ (deleteInvoice dbOk id).1) ∧
    (∀ (dbOk : Bool) (id p : String), Effect.redirectTo p ∉ (deleteCustomer dbOk id).1) ∧
    (∀ (tbl : List InvoiceRow) (id : String), (∀ r ∈ tbl, r.id ≠ id) →
        runDeleteInvoices tbl id = tbl) ∧
    (∀ (tbl : List CustomerRow) (id : String), (∀ r ∈ tbl, r.id ≠ id) →
        runDeleteCustomers tbl id = tbl) := by
  refine ⟨fun id => rfl, fun id => rfl, ?_, ?_, ?_, ?_⟩
  · intro dbOk id p h; cases dbOk <;> simp [deleteInvoice] at h
  · intro dbOk id p h; cases dbOk <;> simp [deleteCustomer] at h
  · intro tbl id h
    refine List.filter_eq_self.mpr ?_
    intro r hr
    simpa [bne_iff_ne] using h r hr
  · intro tbl id h
    refine List.filter_eq_self.mpr ?_
    intro r hr
    simpa [bne_iff_ne] using h r hr

/-- C8 witness: deleting identifier `"ghost"`, which matches no row of a
one-row table, leaves the table unchanged (while the action itself returns
the same confirmation it returns for any identifier). -/
theorem c8_delete_nonexistent_witness :
    runDeleteInvoices [⟨"inv-1", "c1", 100, "pending", "2026-01-01"⟩] "ghost" =
      [⟨"inv-1", "c1", 100, "pending", "2026-01-01"⟩] :=
  c8_delete_confirms_regardless_of_existence.2.2.2.2.1
    [⟨"inv-1", "c1", 100, "pending", "2026-01-01"⟩] "ghost"
    (by intro r hr; simp at hr; subst hr; decide)

/-- C9: `authenticate` returns "Invalid credentials." exactly when `signIn`
failed with an `AuthError` of type `CredentialsSignin`; any other `AuthError`
type yields "Something went wrong."; and an error that is not an `AuthError`
is re-thrown unchanged to the surrounding error boundary. -/
theorem c9_authenticate_maps_only_credentials_signin :
    authenticate (.authError "CredentialsSignin") = .returned (some "Invalid credentials.") ∧
    (∀ t, t ≠ "CredentialsSignin" →
        authenticate (.authError t) = .returned (some "Something went wrong.")) ∧
    (∀ e, authenticate (.otherError e) = .thrown e) ∧
    (∀ r, authenticate r = .returned (some "Invalid credentials.") →
        r = .authError "CredentialsSignin") := by
  refine ⟨rfl, ?_, fun e => rfl, ?_⟩
  · intro t ht; simp [authenticate, ht]
  · intro r h
    cases r with
    | ok => simp [authenticate] at h
    | authError t =>
        by_cases ht : t = "CredentialsSignin"
        · subst ht; rfl
        · simp [authenticate, ht] at h
    | otherError e => simp [authenticate] at h

/-- C9 witness: an `AuthError` of some other type gets the generic message. -/
theorem c9_authenticate_witness :
    authenticate (.authError "CallbackRouteError") =
      .returned (some "Something went wrong.") :=
  c9_authenticate_maps_only_credentials_signin.2.1 "CallbackRouteError" (by decide)

/-- C10: a valid invoice update issues a single UPDATE statement that carries
only `customer_id`, `amount` and `status` — no date — and that statement, run
against any table, preserves every row's stored issue date (together with its
identifier) exactly. -/
theorem c10_update_preserves_invoice_date :
    (∀ (id : String) (dbOk : Bool) (f : InvoiceForm) (d : InvoiceData),
        parseInvoice f = .ok d →
        (updateInvoice id dbOk f).1.filter (fun e => e.isStorageWrite) =
          [.updateInvoiceRow id d.customerId (d.amount * 100) d.status]) ∧
    (∀ (tbl : List InvoiceRow) (id cid : String) (amt : ℚ) (st : String),
        (runUpdateInvoices tbl id cid amt st).map (fun r => (r.id, r.date)) =
          tbl.map (fun r => (r.id, r.date))) := by
  constructor
  · intro id dbOk f d h
    cases dbOk <;> simp [updateInvoice, h, Effect.isStorageWrite]
  · intro tbl id cid amt st
    unfold runUpdateInvoices
    rw [List.map_map]
    refine List.map_congr_left ?_
    intro r hr
    by_cases hid : r.id = id <;> simp [hid, Function.comp]

/-- C10 witness: updating `"inv-1"` with amount `"10.50"` emits a single
UPDATE statement carrying `1050` and no date. -/
theorem c10_update_preserves_date_witness :
    (updateInvoice "inv-1" true ⟨some "c1", some "10.50", some "paid"⟩).1.filter
        (fun e => e.isStorageWrite) =
      [.updateInvoiceRow "inv-1" "c1" 1050 "paid"] := by
  rw [c10_update_preserves_invoice_date.1 "inv-1" true _ ⟨"c1", 21/2, "paid"⟩
      parseInvoice_c1_1050]
  norm_num
